import Mathlib

/-!
# LLMovies — verification of the query-construction and candidate-selection pipeline

Shallow embedding of the core pipeline of the `llmovies` repository:

* `src/app.py` — the main app: title-keyed ranking reconciliation
  (`extract_titles_from`, the stable-sort reordering in `main`), the
  Weaviate `where`-filter construction in `query_weaviate`, and the
  provider-name lookup `get_provider_name`.
* `src/utils/simple_chat.py` — the chat-UI variant: id-keyed reconciliation
  (`extract_ids_from`, the filter in `main`), the two-stage JSON parse of
  the extraction response (`parse_response`, `extract_json_from_string`).
* `src/utils/agents/input.py` / `src/utils/pydantic_models.py` — the
  pydantic schemas (`QueryParams`, `TopicInput`) that validate the decoded
  extraction output.
* `src/utils/enums.py` — the `Providers` enumeration.

Python exceptions are modelled with explicit `Except` / outcome types;
machine strings and lists are Lean `String` / `List`.
-/

deriving instance DecidableEq for Except

namespace LLMovies

/-! ## Error taxonomy

Both apps raise the single class `LLMoviesOutputError` with distinct
messages; the spec's taxonomy distinguishes the cases by message.  We keep
the two reconciliation-stage cases apart as constructors. -/

/-- The `LLMoviesOutputError` raised by the reconciliation step, split by
the message it carries: `formatError` is "The response from the chatbot was
not in the expected format." and `emptySelection` is "Couldn't find any
valid titles/ids in the response from the chatbot." -/
inductive LLMoviesErr where
  | formatError
  | emptySelection
deriving DecidableEq, Repr

/-! ## Candidate records

A candidate as returned by the Weaviate query is a property bag; the
reconciliation logic consults only `title` (app.py) and `show_id`
(simple_chat.py), so only those two fields are modelled.  The remaining
properties (description, genres, vote counts, urls, distance, …) are
display-only and never touched by the verified logic. -/

structure MovieRecord where
  title : String
  show_id : Int
deriving DecidableEq, Repr

/-! ## Python string primitives

`str.split(sep)` and `int(s)` are modelled over `List Char` so that every
definition evaluates inside the kernel. -/

/-- One step list of `str.split(sep)`: scan left to right, cutting at each
non-overlapping occurrence of `sep`.  `fuel` only bounds the recursion;
every call below passes `fuel ≥ length + 1`, and since `sep` is non-empty
each step consumes at least one character, so the fuel-exhausted branch is
never reached. -/
def splitSeqAux (sep : List Char) : Nat → List Char → List Char → List (List Char)
  | 0, l, acc => [acc.reverse ++ l]
  | fuel + 1, l, acc =>
    match l with
    | [] => [acc.reverse]
    | c :: rest =>
      if sep.isPrefixOf l then
        acc.reverse :: splitSeqAux sep fuel (l.drop sep.length) []
      else
        splitSeqAux sep fuel rest (c :: acc)

/-- Python `s.split(sep)` with a non-empty separator: the list of segments
between non-overlapping occurrences of `sep`, empty segments included —
`"".split("|") == [""]`. -/
def pySplit (s : String) (sep : String) : List String :=
  (splitSeqAux sep.data (s.data.length + 1) s.data []).map fun cs => String.mk cs

/-! ## Title-keyed reconciliation (`src/app.py`) -/

/-- Inner helper `extract_titles` of `extract_titles_from`
(`src/app.py:105-112`): `string.split("|")` then keep the non-empty
tokens.  The Python body is wrapped in `try/except ValueError`, but
`str.split` with the non-empty separator `"|"` and the equality filter
cannot raise `ValueError`, so the `except` branch is dead code and the
function is total. -/
def extract_titles (string : String) : List String :=
  (pySplit string "|").filter (fun id => id ≠ "")

/-- `extract_titles_from(recommendations, possible_titles)`
(`src/app.py:100-125`): split the ranking response on `"|"`, keep tokens
that name a pool title, and raise (`emptySelection`) when none remains. -/
def extract_titles_from (recommendations : String) (possible_titles : List String) :
    Except LLMoviesErr (List String) :=
  let titles := extract_titles recommendations
  let valid_id_collection := titles.filter (fun title => title ∈ possible_titles)
  if valid_id_collection = [] then
    .error .emptySelection
  else
    .ok valid_id_collection

/-- The sort key of the reordering in `src/app.py:243-248`:
`recommended_titles.index(k["title"]) if k["title"] in recommended_titles
else N_MOVIES + 1`. -/
def rankKey (recommended_titles : List String) (n_movies : Nat) (k : MovieRecord) : Nat :=
  if k.title ∈ recommended_titles then recommended_titles.indexOf k.title
  else n_movies + 1

/-- The reordering `sorted(results_pool, key=...)` of `src/app.py:243-248`.
Python's `sorted` is a stable sort; `List.insertionSort` with the
non-strict key comparison is stable in the same sense, so the two agree on
every input. -/
def reconcile (results_pool : List MovieRecord) (recommended_titles : List String)
    (n_movies : Nat) : List MovieRecord :=
  results_pool.insertionSort
    (fun a b => rankKey recommended_titles n_movies a ≤ rankKey recommended_titles n_movies b)

/-! ## Id-keyed reconciliation (`src/utils/simple_chat.py`) -/

/-- Python's `int(s)` on a string: optional surrounding whitespace, an
optional sign, then a non-empty digit string (underscore digit-group
separators, allowed between digits by Python, are not modelled — no input
considered here uses them).  Returns `none` where Python raises
`ValueError`. -/
def pyInt? (s : String) : Option Int :=
  let isPySpace : Char → Bool := fun c =>
    c = ' ' ∨ c = '\t' ∨ c = '\n' ∨ c = '\r' ∨ c = '\x0b' ∨ c = '\x0c'
  let stripped := ((s.data.dropWhile isPySpace).reverse.dropWhile isPySpace).reverse
  let (neg, digits) :=
    match stripped with
    | '-' :: rest => (true, rest)
    | '+' :: rest => (false, rest)
    | l => (false, l)
  if digits = [] ∨ ¬ digits.all Char.isDigit then none
  else
    let n : Nat := digits.foldl (fun acc c => 10 * acc + c.toNat - '0'.toNat) 0
    some (if neg then -(n : Int) else (n : Int))

/-- Inner helper `extract_ids_as_int` of `extract_ids_from`
(`src/utils/simple_chat.py:231-238`): `string.split(", ")`, drop empty
tokens, convert each to `int`; a failing conversion raises the
format-error (`except ValueError`). -/
def extract_ids_as_int (string : String) : Except LLMoviesErr (List Int) :=
  let split_ids := (pySplit string ", ").filter (fun id => id ≠ "")
  match split_ids.mapM pyInt? with
  | some ids => .ok ids
  | none => .error .formatError

/-- `extract_ids_from(recommendations, possible_ids)`
(`src/utils/simple_chat.py:228-251`): parse the comma-separated id list,
keep ids present in the pool, and raise (`emptySelection`) when none
remains. -/
def extract_ids_from (recommendations : String) (possible_ids : List Int) :
    Except LLMoviesErr (List Int) :=
  match extract_ids_as_int recommendations with
  | .error e => .error e
  | .ok ids_as_int =>
    let valid_id_collection := ids_as_int.filter (fun id => id ∈ possible_ids)
    if valid_id_collection = [] then
      .error .emptySelection
    else
      .ok valid_id_collection

/-- The post-selection step of `src/utils/simple_chat.py:356-360`:
`[result for result in results_pool if result["show_id"] in
recommended_ids]` — keep exactly the selected candidates, in pool order. -/
def select_recommended (results_pool : List MovieRecord) (recommended_ids : List Int) :
    List MovieRecord :=
  results_pool.filter (fun result => result.show_id ∈ recommended_ids)

/-! ## Where-filter construction (`src/app.py`, `query_weaviate`) -/

/-- The `genres` argument of `query_weaviate` (`src/app.py:30`): Python
type `str | list[str] | None`. -/
inductive GenresParam where
  | pyStr (s : String)
  | pyList (l : List String)
  | pyNone
deriving DecidableEq, Repr

/-- An atomic clause of the Weaviate `where` filter, as the dicts built in
`src/app.py:51-73`: `ContainsAny` over `valueInt`, `GreaterThan` over
`valueInt`, or `ContainsAny` over `valueTextArray` (which is `None` when
the Python `genres` argument is `None`). -/
inductive WhereOperand where
  | containsAnyInt (path : List String) (valueInt : List Int)
  | greaterThanInt (path : List String) (valueInt : Int)
  | containsAnyText (path : List String) (valueTextArray : Option (List String))
deriving DecidableEq, Repr

/-- The composite `where_filter` dict of `src/app.py:75`. -/
structure WhereFilter where
  operator : String
  operands : List WhereOperand
deriving DecidableEq, Repr

/-- The `isinstance(genres, str)` normalisation of `src/app.py:66-67`: a
single string becomes the one-element list; `None` stays `None` and ends
up as `valueTextArray: None`. -/
def normalized_genres : GenresParam → Option (List String)
  | .pyStr s => some [s]
  | .pyList l => some l
  | .pyNone => none

/-- The filter-construction part of `query_weaviate` (`src/app.py:50-75`):
always append the provider `ContainsAny` clause and the vote-count
`GreaterThan` clause; append the genre `ContainsAny` clause only when
`genres != "ALL"`. -/
def build_where_filter (providers : List Int) (min_vote_count : Int)
    (genres : GenresParam) : WhereFilter :=
  let operands := [WhereOperand.containsAnyInt ["providers"] providers,
                   WhereOperand.greaterThanInt ["vote_count"] min_vote_count]
  let operands :=
    if genres ≠ GenresParam.pyStr "ALL" then
      operands ++ [WhereOperand.containsAnyText ["genres"] (normalized_genres genres)]
    else
      operands
  ⟨"And", operands⟩

/-! ## Python exception kinds

Exceptions that can escape the modelled functions, other than
`LLMoviesOutputError`. -/

inductive PyExc where
  | valueError
  | attributeError
  | indexError
  | typeError
  | jsonDecodeError
  | validationError
deriving DecidableEq, Repr

/-! ## Provider catalog (`src/utils/enums.py`) -/

/-- The members of the `Providers(str, Enum)` class, in definition order:
`(value, name)` pairs. -/
def Providers.members : List (String × String) :=
  [("8", "Netflix"),
   ("9", "AmazonPrimeVideo"),
   ("10", "AmazonVideo"),
   ("337", "DisenyPlus"),
   ("1899", "Max"),
   ("15", "Hulu")]

/-- `get_provider_name(provider_id)` (`src/app.py:135-136`):
`Providers(provider_id).name` — enum lookup by value, which raises
`ValueError` when no member has that value. -/
def get_provider_name (provider_id : String) : Except PyExc String :=
  match Providers.members.find? (fun m => m.1 = provider_id) with
  | some member => .ok member.2
  | none => .error .valueError

/-! ## Genre vocabulary (`src/utils/input.py`) -/

/-- The closed genre vocabulary `CATEGORIES` (`src/utils/input.py:9-29`;
the identical list is what `src/utils/agents/input.py` interpolates into
the `genre` field description). -/
def CATEGORIES : List String :=
  ["Action", "Documentary", "Family", "Drama", "Horror", "Fantasy",
   "Adventure", "History", "Romance", "Music", "Western", "Animation",
   "War", "Comedy", "Mystery", "TV Movie", "Thriller", "Science Fiction",
   "Crime"]

/-! ## Decoded JSON values

`json.loads` output, restricted to what the pipeline's payloads use
(numbers are integers; floats never reach the verified logic). -/

inductive JValue where
  | jnull
  | jbool (b : Bool)
  | jint (n : Int)
  | jstr (s : String)
  | jarr (elems : List JValue)
  | jobj (fields : List (String × JValue))

/-- Field lookup in a decoded JSON object. -/
def jlookup (fields : List (String × JValue)) (key : String) : Option JValue :=
  (fields.find? (fun f => f.1 = key)).map (fun f => f.2)

/-- All elements of a JSON array decoded as strings, if they all are
(`list[str]` in a pydantic annotation). -/
def jStringList : List JValue → Option (List String)
  | [] => some []
  | .jstr s :: rest => (jStringList rest).map (fun l => s :: l)
  | _ => none

/-! ## `QueryParams` validation (`src/utils/agents/input.py:9-23`) -/

/-- The validated `genre` field of `QueryParams`: annotation
`str | list[str]`. -/
inductive GenreField where
  | asStr (s : String)
  | asList (l : List String)
deriving DecidableEq, Repr

/-- The `QueryParams` schema (`src/utils/agents/input.py:9-23`):
`semantic_search: str`, `media: Literal["TV Show", "Movie", "ALL"]`,
`genre: str | list[str]`.  The closed-vocabulary requirement on `genre`
appears only in the field *description* (prompt text for the model); it is
not a type annotation, so pydantic does not check it. -/
structure QueryParams where
  semantic_search : String
  media : String
  genre : GenreField
deriving DecidableEq, Repr

/-- Pydantic validation of a decoded JSON object against the `QueryParams`
schema: every field present and of the annotated type; `media` must be one
of the three literals; `genre` must be a string or a list of strings —
nothing constrains which strings. -/
def QueryParams.validate (fields : List (String × JValue)) :
    Except PyExc QueryParams :=
  match jlookup fields "semantic_search", jlookup fields "media",
        jlookup fields "genre" with
  | some (.jstr s), some (.jstr m), some g =>
    if m = "TV Show" ∨ m = "Movie" ∨ m = "ALL" then
      match g with
      | .jstr gs => .ok ⟨s, m, .asStr gs⟩
      | .jarr elems =>
        match jStringList elems with
        | some l => .ok ⟨s, m, .asList l⟩
        | none => .error .validationError
      | _ => .error .validationError
    else
      .error .validationError
  | _, _, _ => .error .validationError

/-! ## `json.loads` (used by `parse_response` in `src/utils/simple_chat.py`)

A recursive-descent parser for the JSON subset the pipeline's payloads
use: objects, arrays, strings (with the common escapes; `\uXXXX` escapes
are not modelled), integer numbers (float literals are not modelled — no
payload the verified logic touches contains one), `true`/`false`/`null`.
Returns `none` where Python raises `json.decoder.JSONDecodeError`. -/

/-- Drop leading JSON whitespace characters. -/
def jsonSkipSpace (cs : List Char) : List Char :=
  cs.dropWhile fun c => c = ' ' ∨ c = '\t' ∨ c = '\n' ∨ c = '\r'

/-- The single-character JSON string escapes, as an escape-letter →
denoted-character table (`\b` is U+0008, `\f` is U+000C). -/
def stringEscapes : List (Char × Char) :=
  [('"', '"'), ('\\', '\\'), ('/', '/'), ('n', '\n'), ('t', '\t'),
   ('r', '\r'), ('b', Char.ofNat 8), ('f', Char.ofNat 12)]

/-- Numeric value of a list of decimal digit characters (48 is the code
point of the digit zero). -/
def decimalValue (digits : List Char) : Nat :=
  digits.foldl (fun acc c => acc * 10 + (c.toNat - 48)) 0

/-- Parse the body of a JSON string after the opening quote; returns the
content and the input after the closing quote. -/
def parseStringBody : List Char → Option (List Char × List Char)
  | [] => none
  | c :: rest =>
    if c = '"' then
      some ([], rest)
    else if c = '\\' then
      match rest with
      | [] => none
      | e :: rest2 =>
        match (stringEscapes.find? fun p => p.1 = e), parseStringBody rest2 with
        | some p, some (content, after) => some (p.2 :: content, after)
        | _, _ => none
    else
      match parseStringBody rest with
      | some (content, after) => some (c :: content, after)
      | none => none

/-- Parse a JSON value.  `fuel` bounds the recursion depth; each recursive
call consumes at least one input character first, so `input length + 1`
fuel always suffices.  An object or array continues by re-parsing
`'{' :: rest` (resp. `'[' :: rest`) after a comma, so a single fueled
function covers the whole grammar. -/
def parseValue : Nat → List Char → Option (JValue × List Char)
  | 0, _ => none
  | fuel + 1, cs =>
    match jsonSkipSpace cs with
    | [] => none
    | '{' :: rest =>
      (match jsonSkipSpace rest with
       | '}' :: rest2 => some (.jobj [], rest2)
       | '"' :: rest2 =>
         (match parseStringBody rest2 with
          | none => none
          | some (keyChars, rest3) =>
            match jsonSkipSpace rest3 with
            | ':' :: rest4 =>
              (match parseValue fuel rest4 with
               | none => none
               | some (v, rest5) =>
                 match jsonSkipSpace rest5 with
                 | ',' :: rest6 =>
                   (match jsonSkipSpace rest6 with
                    | '"' :: _ =>
                      (match parseValue fuel ('{' :: rest6) with
                       | some (.jobj fields, rest7) =>
                         some (.jobj ((String.mk keyChars, v) :: fields), rest7)
                       | _ => none)
                    | _ => none)
                 | '}' :: rest6 => some (.jobj [(String.mk keyChars, v)], rest6)
                 | _ => none)
            | _ => none)
       | _ => none)
    | '[' :: rest =>
      (match jsonSkipSpace rest with
       | ']' :: rest2 => some (.jarr [], rest2)
       | _ =>
         (match parseValue fuel rest with
          | none => none
          | some (v, rest3) =>
            match jsonSkipSpace rest3 with
            | ',' :: rest4 =>
              (match jsonSkipSpace rest4 with
               | ']' :: _ => none
               | _ =>
                 match parseValue fuel ('[' :: rest4) with
                 | some (.jarr elems, rest5) => some (.jarr (v :: elems), rest5)
                 | _ => none)
            | ']' :: rest4 => some (.jarr [v], rest4)
            | _ => none))
    | '"' :: rest =>
      (match parseStringBody rest with
       | some (s, r) => some (.jstr (String.mk s), r)
       | none => none)
    | l =>
      if ['n', 'u', 'l', 'l'].isPrefixOf l then some (.jnull, l.drop 4)
      else if ['t', 'r', 'u', 'e'].isPrefixOf l then some (.jbool true, l.drop 4)
      else if ['f', 'a', 'l', 's', 'e'].isPrefixOf l then some (.jbool false, l.drop 5)
      else
        let minus := l.head? = some '-'
        let body := if minus then l.tail else l
        let digits := body.takeWhile Char.isDigit
        let after := body.dropWhile Char.isDigit
        let value : Int := if minus then -(decimalValue digits : Int) else decimalValue digits
        if digits = [] then none
        else if 1 < digits.length ∧ digits.head? = some '0' then none
        else
          match after with
          | p :: _ =>
            if p = '.' ∨ p = 'e' ∨ p = 'E' then none
            else some (.jint value, after)
          | [] => some (.jint value, after)

/-- Python `json.loads(s)`: parse one value, allow surrounding whitespace,
require the whole input to be consumed. -/
def json_loads (s : String) : Option JValue :=
  match parseValue (s.data.length + 1) s.data with
  | some (v, rest) => if jsonSkipSpace rest = [] then some v else none
  | none => none

/-! ## `TopicInput` validation (`src/utils/pydantic_models.py:6-9`) -/

/-- The `genres` field of `TopicInput`: annotation `str | list[str] | None`. -/
inductive TopicGenres where
  | asStr (s : String)
  | asList (l : List String)
  | asNone
deriving DecidableEq, Repr

/-- The `media` field of `TopicInput`: annotation
`Literal["TV", "Movie", ""] | None | list[str]`. -/
inductive TopicMedia where
  | lit (s : String)
  | asNone
  | asList (l : List String)
deriving DecidableEq, Repr

/-- The `TopicInput` schema (`src/utils/pydantic_models.py:6-9`):
`topic: str`, `genres: str | list[str] | None`,
`media: Literal["TV", "Movie", ""] | None | list[str]`. -/
structure TopicInput where
  topic : String
  genres : TopicGenres
  media : TopicMedia
deriving DecidableEq, Repr

/-- Pydantic validation of a decoded JSON object against the `TopicInput`
schema. -/
def TopicInput.validate (fields : List (String × JValue)) :
    Except PyExc TopicInput :=
  match jlookup fields "topic", jlookup fields "genres",
        jlookup fields "media" with
  | some (.jstr t), some g, some m =>
    let genres? : Option TopicGenres :=
      match g with
      | .jstr s => some (.asStr s)
      | .jarr elems => (jStringList elems).map .asList
      | .jnull => some .asNone
      | _ => none
    let media? : Option TopicMedia :=
      match m with
      | .jstr s => if s = "TV" ∨ s = "Movie" ∨ s = "" then some (.lit s) else none
      | .jnull => some .asNone
      | .jarr elems => (jStringList elems).map .asList
      | _ => none
    match genres?, media? with
    | some gv, some mv => .ok ⟨t, gv, mv⟩
    | _, _ => .error .validationError
  | _, _, _ => .error .validationError

/-! ## Two-stage extraction parse (`src/utils/simple_chat.py:49-72`) -/

/-- `re.search(r"\x7b[\s\S]*?\x7d", string)` of `extract_json_from_string`
(`src/utils/simple_chat.py:68-70`): the pattern matches lazily, so the
leftmost-shortest match runs from the first `{` of the input to the first
`}` at or after it; `none` models a `None` match object. -/
def re_search_braces (string : String) : Option String :=
  match string.data.dropWhile (fun c => c ≠ '{') with
  | '{' :: rest =>
    let inner := rest.takeWhile (fun c => c ≠ '}')
    match rest.dropWhile (fun c => c ≠ '}') with
    | '}' :: _ => some (String.mk ('{' :: (inner ++ ['}'])))
    | _ => none
  | _ => none

/-- `extract_json_from_string(string)` (`src/utils/simple_chat.py:68-72`):
`match = re.search(pattern, string)` then `json_string = match.group(1)`.
When no brace block exists, `match` is `None` and `.group` raises
`AttributeError`.  When a match exists, `.group(1)` raises
`IndexError("no such group")`, because the pattern contains no capture
group; the subsequent `json.loads(json_string)` line is therefore
unreachable. -/
def extract_json_from_string (string : String) : Except PyExc JValue :=
  match re_search_braces string with
  | none => .error .attributeError
  | some _ => .error .indexError

/-- The outcome of `parse_response`: a validated `TopicInput`, a raised
`LLMoviesOutputError` (with its message), or an exception of another class
escaping the function. -/
inductive ParseOutcome where
  | ok (t : TopicInput)
  | llmoviesError (msg : String)
  | uncaught (e : PyExc)
deriving DecidableEq, Repr

/-- `parse_response(response)` (`src/utils/simple_chat.py:49-66`).
Stage 1: `json.loads(response)` then `TopicInput(**as_json)`; a
`ValidationError` there is caught by the outer handler and re-raised as a
bare `LLMoviesOutputError`; a non-dict decode makes `TopicInput(**as_json)`
raise `TypeError`, which no handler catches.  Stage 2 (on
`JSONDecodeError`): `extract_json_from_string(response)`, whose
`AttributeError` is caught and re-raised as `LLMoviesOutputError`; any
other exception raised inside this handler — including the `IndexError`
from `match.group(1)` — escapes, since the sibling
`except ValidationError` clause does not apply to exceptions raised in a
handler. -/
def parse_response (response : String) : ParseOutcome :=
  match json_loads response with
  | some (.jobj fields) =>
    (match TopicInput.validate fields with
     | .ok t => .ok t
     | .error _ => .llmoviesError "")
  | some _ => .uncaught .typeError
  | none =>
    match extract_json_from_string response with
    | .error .attributeError =>
      .llmoviesError "The response from the chatbot was not valid JSON."
    | .error e => .uncaught e
    | .ok (.jobj fields) =>
      (match TopicInput.validate fields with
       | .ok t => .ok t
       | .error _ => .uncaught .validationError)
    | .ok _ => .uncaught .typeError

/-! ## Theorems -/

/-- C2 (confirmed): `extract_titles_from` raises the empty-selection
`LLMoviesOutputError` exactly when no token of the ranking response
survives tokenisation and hallucination filtering; in particular on the
empty response, a whitespace-only response, and a response whose every
token misses the pool.  An `error` result means no `.ok` list of movies is
returned. -/
theorem empty_selection_iff_no_valid_titles :
    (∀ (recommendations : String) (possible_titles : List String),
        extract_titles_from recommendations possible_titles = .error .emptySelection ↔
          (extract_titles recommendations).filter
            (fun title => title ∈ possible_titles) = []) ∧
    (∀ possible_titles : List String,
        extract_titles_from "" possible_titles = .error .emptySelection) ∧
    extract_titles_from "   " ["17", "42", "101"] = .error .emptySelection ∧
    extract_titles_from "99|100" ["17", "42", "101"] = .error .emptySelection := by
  refine ⟨fun recommendations possible_titles => ?_, fun _ => rfl, by decide, by decide⟩
  by_cases h :
      (extract_titles recommendations).filter (fun title => title ∈ possible_titles) = []
  · simp [extract_titles_from, h]
  · simp [extract_titles_from, h]

/-- C10 (confirmed): in the title-keyed reconciler the token-conversion
failure branch is unreachable — `str.split("|")` and the emptiness filter
cannot raise `ValueError`, so `extract_titles_from` never produces the
"not in the expected format" error: it either returns a non-empty list of
titles drawn from `possible_titles` or raises the empty-selection error. -/
theorem extract_titles_format_error_unreachable :
    ∀ (recommendations : String) (possible_titles : List String),
      extract_titles_from recommendations possible_titles ≠ .error .formatError ∧
      ((∃ l, extract_titles_from recommendations possible_titles = .ok l ∧
          l ≠ [] ∧ ∀ t ∈ l, t ∈ possible_titles) ∨
        extract_titles_from recommendations possible_titles = .error .emptySelection) := by
  intro recommendations possible_titles
  by_cases h :
      (extract_titles recommendations).filter (fun title => title ∈ possible_titles) = []
  · exact ⟨by simp [extract_titles_from, h], Or.inr (by simp [extract_titles_from, h])⟩
  · refine ⟨by simp [extract_titles_from, h], Or.inl
      ⟨(extract_titles recommendations).filter (fun title => title ∈ possible_titles),
        by simp [extract_titles_from, h], h, ?_⟩⟩
    intro t ht
    simpa using (List.mem_filter.mp ht).2

/-- C5 (confirmed): tokens that match no pool key are dropped silently by
both reconcilers — they never appear in the returned selection, and their
presence alone raises no error: as long as at least one valid key remains,
the result is `.ok`.  (For the id-keyed variant the tokens must parse as
integers, which is its key type.) -/
theorem hallucinated_keys_dropped_silently :
    (∀ (recommendations : String) (possible_titles : List String),
        (extract_titles recommendations).filter
          (fun title => title ∈ possible_titles) ≠ [] →
        ∃ l, extract_titles_from recommendations possible_titles = .ok l ∧
          ∀ t, t ∉ possible_titles → t ∉ l) ∧
    (∀ (recommendations : String) (possible_ids : List Int) (ids : List Int),
        extract_ids_as_int recommendations = .ok ids →
        ids.filter (fun id => id ∈ possible_ids) ≠ [] →
        ∃ l, extract_ids_from recommendations possible_ids = .ok l ∧
          ∀ i, i ∉ possible_ids → i ∉ l) := by
  constructor
  · intro recommendations possible_titles h
    refine ⟨(extract_titles recommendations).filter (fun title => title ∈ possible_titles),
      by simp [extract_titles_from, h], ?_⟩
    intro t ht hmem
    exact ht (by simpa using (List.mem_filter.mp hmem).2)
  · intro recommendations possible_ids ids hids h
    refine ⟨ids.filter (fun id => id ∈ possible_ids),
      by simp [extract_ids_from, hids, h], ?_⟩
    intro i hi hmem
    exact hi (by simpa using (List.mem_filter.mp hmem).2)

/-- C5 witness: response `"42|17|99"` (resp. `"42, 17, 99"`) against pool
keys `{17, 42, 101}` — the hallucinated key 99 is dropped, no error is
raised. -/
theorem hallucinated_keys_dropped_silently_witness :
    ((extract_titles "42|17|99").filter (fun title => title ∈ ["17", "42", "101"]) ≠ [] ∧
      ∃ l, extract_titles_from "42|17|99" ["17", "42", "101"] = .ok l ∧
        ∀ t, t ∉ ["17", "42", "101"] → t ∉ l) ∧
    (extract_ids_as_int "42, 17, 99" = .ok [42, 17, 99] ∧
      ([42, 17, 99] : List Int).filter (fun id => id ∈ [17, 42, 101]) ≠ [] ∧
      ∃ l, extract_ids_from "42, 17, 99" [17, 42, 101] = .ok l ∧
        ∀ i, i ∉ [(17 : Int), 42, 101] → i ∉ l) :=
  ⟨⟨by decide,
    hallucinated_keys_dropped_silently.1 "42|17|99" ["17", "42", "101"] (by decide)⟩,
   ⟨by decide, by decide,
    hallucinated_keys_dropped_silently.2 "42, 17, 99" [17, 42, 101] [42, 17, 99]
      (by decide) (by decide)⟩⟩

/-- C1 counterexample: for ranking response `"42|17|99"` against the pool
with keys `{17, 42, 101}`, the validated selection is `["42", "17"]`, but
the reconciled sequence is *not* the two selected candidates alone: the
unselected candidate keyed 101 appears in it (the `sorted(...)` call
reorders the pool, it does not drop). -/
theorem reconcile_scenarioB_keeps_unselected :
    extract_titles_from "42|17|99" ["17", "42", "101"] = .ok ["42", "17"] ∧
    reconcile [⟨"17", 17⟩, ⟨"42", 42⟩, ⟨"101", 101⟩] ["42", "17"] 10 ≠
      [⟨"42", 42⟩, ⟨"17", 17⟩] ∧
    (⟨"101", 101⟩ : MovieRecord) ∈
      reconcile [⟨"17", 17⟩, ⟨"42", 42⟩, ⟨"101", 101⟩] ["42", "17"] 10 := by
  refine ⟨by decide, by decide, by decide⟩

/-- C1 (amended): the reconciliation step returns the whole candidate pool
re-ordered, never a strict subset: the result is a permutation of the pool,
sorted so that selected candidates come first in the order the model gave
them (sort key = position in the validated selection) and unselected
candidates after them (sort key `N_MOVIES + 1`); the presentation layer
then renders only the first three.  For response `"42|17|99"` against the
pool with keys `{17, 42, 101}` the reconciled sequence is the candidates
keyed 42, 17, 101, in that order. -/
theorem reconcile_is_stable_reorder_scenarioB :
    (∀ (pool : List MovieRecord) (sel : List String) (n : Nat),
        (reconcile pool sel n).Perm pool) ∧
    (∀ (pool : List MovieRecord) (sel : List String) (n : Nat),
        (reconcile pool sel n).Sorted
          (fun a b => rankKey sel n a ≤ rankKey sel n b)) ∧
    reconcile [⟨"17", 17⟩, ⟨"42", 42⟩, ⟨"101", 101⟩] ["42", "17"] 10 =
      [⟨"42", 42⟩, ⟨"17", 17⟩, ⟨"101", 101⟩] := by
  refine ⟨fun pool sel n => List.perm_insertionSort _ pool, fun pool sel n => ?_, by decide⟩
  haveI : IsTotal MovieRecord (fun a b => rankKey sel n a ≤ rankKey sel n b) :=
    ⟨fun a b => Nat.le_total _ _⟩
  haveI : IsTrans MovieRecord (fun a b => rankKey sel n a ≤ rankKey sel n b) :=
    ⟨fun _ _ _ => Nat.le_trans⟩
  exact List.sorted_insertionSort _ pool

/-- C8 (confirmed): when the ranking response lists every candidate key
exactly once, reconciliation drops and duplicates nothing: the title-keyed
reordering returns a permutation of the pool, and the id-keyed filter
returns the pool itself. -/
theorem full_selection_is_permutation :
    (∀ (pool : List MovieRecord) (sel : List String) (n : Nat),
        (pool.map MovieRecord.title).Nodup →
        sel.Perm (pool.map MovieRecord.title) →
        (reconcile pool sel n).Perm pool) ∧
    (∀ (pool : List MovieRecord) (ids : List Int),
        (pool.map MovieRecord.show_id).Nodup →
        ids.Perm (pool.map MovieRecord.show_id) →
        select_recommended pool ids = pool) := by
  constructor
  · exact fun pool sel n _ _ => List.perm_insertionSort _ pool
  · intro pool ids _ hperm
    refine List.filter_eq_self.mpr fun m hm => ?_
    simpa using hperm.mem_iff.mpr (List.mem_map_of_mem MovieRecord.show_id hm)

/-- C8 witness: a two-candidate pool whose keys are both listed exactly
once is returned whole by both reconcilers. -/
theorem full_selection_is_permutation_witness :
    (([⟨"A", 1⟩, ⟨"B", 2⟩] : List MovieRecord).map MovieRecord.title).Nodup ∧
    (["B", "A"] : List String).Perm
      (([⟨"A", 1⟩, ⟨"B", 2⟩] : List MovieRecord).map MovieRecord.title) ∧
    (reconcile [⟨"A", 1⟩, ⟨"B", 2⟩] ["B", "A"] 10).Perm [⟨"A", 1⟩, ⟨"B", 2⟩] ∧
    ([(2 : Int), 1]).Perm (([⟨"A", 1⟩, ⟨"B", 2⟩] : List MovieRecord).map MovieRecord.show_id) ∧
    select_recommended [⟨"A", 1⟩, ⟨"B", 2⟩] [2, 1] = [⟨"A", 1⟩, ⟨"B", 2⟩] :=
  ⟨by decide, by decide,
   full_selection_is_permutation.1 [⟨"A", 1⟩, ⟨"B", 2⟩] ["B", "A"] 10 (by decide) (by decide),
   by decide,
   full_selection_is_permutation.2 [⟨"A", 1⟩, ⟨"B", 2⟩] [2, 1] (by decide) (by decide)⟩

/-- C3 (confirmed): with the sentinel genre `"ALL"` the built `where`
filter is the conjunction of exactly the provider `ContainsAny` clause and
the vote-count `GreaterThan` clause; for every other genre value the genre
`ContainsAny` clause is appended as a third conjunct, the first two
clauses being present in every case. -/
theorem where_filter_genre_clause_conditional :
    (∀ (providers : List Int) (min_vote_count : Int),
        (build_where_filter providers min_vote_count (.pyStr "ALL")).operands =
          [.containsAnyInt ["providers"] providers,
           .greaterThanInt ["vote_count"] min_vote_count]) ∧
    (∀ (providers : List Int) (min_vote_count : Int) (genres : GenresParam),
        genres ≠ .pyStr "ALL" →
        (build_where_filter providers min_vote_count genres).operands =
          [.containsAnyInt ["providers"] providers,
           .greaterThanInt ["vote_count"] min_vote_count,
           .containsAnyText ["genres"] (normalized_genres genres)]) := by
  constructor
  · intro providers min_vote_count
    simp [build_where_filter]
  · intro providers min_vote_count genres h
    simp [build_where_filter, h]

/-- C3 witness: providers `{8}`, vote threshold 500 — genre `"ALL"` gives
the two clauses, genre `"Comedy"` adds the genre clause. -/
theorem where_filter_genre_clause_conditional_witness :
    (build_where_filter [8] 500 (.pyStr "ALL")).operands =
      [.containsAnyInt ["providers"] [8], .greaterThanInt ["vote_count"] 500] ∧
    (GenresParam.pyStr "Comedy" ≠ .pyStr "ALL") ∧
    (build_where_filter [8] 500 (.pyStr "Comedy")).operands =
      [.containsAnyInt ["providers"] [8], .greaterThanInt ["vote_count"] 500,
       .containsAnyText ["genres"] (some ["Comedy"])] :=
  ⟨where_filter_genre_clause_conditional.1 [8] 500, by decide,
   where_filter_genre_clause_conditional.2 [8] 500 (.pyStr "Comedy") (by decide)⟩

/-- C7 (confirmed): a single-string genre drawn from the closed vocabulary
is normalised to the one-element list before the clause is built, so
`build(genre="Comedy")` and `build(genre=["Comedy"])` produce equal
filters.  (The membership hypothesis reflects the `SearchConstraints`
invariant; the sentinel `"ALL"` is not a vocabulary member and is the one
string handled differently.) -/
theorem single_genre_equals_singleton_list :
    ∀ (providers : List Int) (min_vote_count : Int) (s : String),
      s ∈ CATEGORIES →
      build_where_filter providers min_vote_count (.pyStr s) =
        build_where_filter providers min_vote_count (.pyList [s]) := by
  intro providers min_vote_count s hs
  have hne : s ≠ "ALL" := by
    rintro rfl
    revert hs
    decide
  have h1 : GenresParam.pyStr s ≠ .pyStr "ALL" := by
    simpa using hne
  have h2 : GenresParam.pyList [s] ≠ .pyStr "ALL" := by
    simp
  simp [build_where_filter, h1, h2, normalized_genres]

/-- C7 witness: `build(genre="Comedy")` equals `build(genre=["Comedy"])`
for providers `{8}` and threshold 500. -/
theorem single_genre_equals_singleton_list_witness :
    "Comedy" ∈ CATEGORIES ∧
    build_where_filter [8] 500 (.pyStr "Comedy") =
      build_where_filter [8] 500 (.pyList ["Comedy"]) :=
  ⟨by decide, single_genre_equals_singleton_list [8] 500 "Comedy" (by decide)⟩

/-- C9 (confirmed): the provider catalog is a pure lookup over the closed
static `Providers` table — every id in the table resolves to its member
name, and any other id raises `ValueError` (the `UnknownProviderError`
class of the taxonomy) rather than returning a default. -/
theorem provider_lookup_closed_table :
    (∀ provider_id name, (provider_id, name) ∈ Providers.members →
        get_provider_name provider_id = .ok name) ∧
    (∀ provider_id, provider_id ∉ Providers.members.map Prod.fst →
        get_provider_name provider_id = .error .valueError) := by
  constructor
  · intro provider_id name h
    fin_cases h <;> rfl
  · intro provider_id h
    have hfind : Providers.members.find? (fun m => m.1 = provider_id) = none := by
      rw [List.find?_eq_none]
      intro x hx
      simp only [decide_eq_true_eq]
      intro hxid
      exact h (hxid ▸ List.mem_map_of_mem Prod.fst hx)
    simp [get_provider_name, hfind]

/-- C9 witness: id `"8"` resolves to `Netflix`; id `"999"` is outside the
table and fails. -/
theorem provider_lookup_closed_table_witness :
    get_provider_name "8" = .ok "Netflix" ∧
    get_provider_name "999" = .error .valueError :=
  ⟨provider_lookup_closed_table.1 "8" "Netflix" (by decide),
   provider_lookup_closed_table.2 "999" (by decide)⟩

/-- C4 counterexample: the decoded genre `"Sci-Fi Romance"` is not in the
closed vocabulary, yet `QueryParams` validation accepts it and returns a
constraints value instead of raising — the vocabulary is only prompt text,
not a type annotation. -/
theorem out_of_vocabulary_genre_passes_validation :
    "Sci-Fi Romance" ∉ CATEGORIES ∧
    QueryParams.validate
      [("semantic_search", .jstr "romance in space"), ("media", .jstr "Movie"),
       ("genre", .jstr "Sci-Fi Romance")] =
      .ok ⟨"romance in space", "Movie", .asStr "Sci-Fi Romance"⟩ := by
  refine ⟨by decide, by decide⟩

/-- C4 (amended): `QueryParams` validation enforces only the annotated
type shape — `semantic_search` a string, `media` one of the three
literals, `genre` a string or list of strings.  Any genre *string* passes,
vocabulary member or not; a `ValidationError`-class failure does occur for
shape violations such as a `media` value outside its literal set. -/
theorem queryparams_validation_type_shape_only :
    (∀ (s m g : String), (m = "TV Show" ∨ m = "Movie" ∨ m = "ALL") →
        QueryParams.validate
          [("semantic_search", .jstr s), ("media", .jstr m), ("genre", .jstr g)] =
          .ok ⟨s, m, .asStr g⟩) ∧
    (∀ (s m g : String),
        m ≠ "TV Show" → m ≠ "Movie" → m ≠ "ALL" →
        QueryParams.validate
          [("semantic_search", .jstr s), ("media", .jstr m), ("genre", .jstr g)] =
          .error .validationError) := by
  constructor
  · intro s m g hm
    simp [QueryParams.validate, jlookup, hm]
  · intro s m g h1 h2 h3
    simp [QueryParams.validate, jlookup, h1, h2, h3]

/-- C4 witness: the well-shaped payload with out-of-vocabulary genre
`"Sci-Fi Romance"` validates; the same payload with media `"Cartoon"`
fails validation. -/
theorem queryparams_validation_type_shape_only_witness :
    (("Movie" : String) = "TV Show" ∨ ("Movie" : String) = "Movie" ∨
      ("Movie" : String) = "ALL") ∧
    QueryParams.validate
      [("semantic_search", .jstr "friendship"), ("media", .jstr "Movie"),
       ("genre", .jstr "Sci-Fi Romance")] =
      .ok ⟨"friendship", "Movie", .asStr "Sci-Fi Romance"⟩ ∧
    QueryParams.validate
      [("semantic_search", .jstr "friendship"), ("media", .jstr "Cartoon"),
       ("genre", .jstr "Comedy")] =
      .error .validationError :=
  ⟨by decide,
   queryparams_validation_type_shape_only.1 "friendship" "Movie" "Sci-Fi Romance"
     (by decide),
   queryparams_validation_type_shape_only.2 "friendship" "Cartoon" "Comedy"
     (by decide) (by decide) (by decide)⟩

/-- C6 (code bug): on an extraction response that is prose containing an
embedded JSON block, stage 1 (`json.loads`) fails as expected, but stage 2
does not fail typed: `extract_json_from_string` calls `match.group(1)` on
a pattern with no capture group, so an *untyped* `IndexError` escapes
`parse_response` instead of a `MalformedModelOutput`-class
`LLMoviesOutputError` (or a successful parse of the block).  Prose with no
brace block still fails typed. -/
theorem parse_response_uncaught_index_error :
    json_loads "Sorry! Here you go: \x7b\"topic\": \"friendship\"\x7d" = none ∧
    parse_response "Sorry! Here you go: \x7b\"topic\": \"friendship\"\x7d" =
      .uncaught .indexError ∧
    parse_response "Sorry, I can only help with movies and TV shows." =
      .llmoviesError "The response from the chatbot was not valid JSON." :=
  ⟨rfl, rfl, rfl⟩

end LLMovies
